import Mathlib

/-!
# Verification of the Mindual client core (src/web/src/App.jsx)

This file gives a shallow embedding, in Lean, of the client-side interaction
logic of the Mindual web front-end, and proves the behavioural properties
stated about it:

* the calendar grid construction (the `calendar` memo in App.jsx),
* the response interpretation logic (answer fallback, intent classification
  and citation decoration inside `handleSubmit`),
* the chat submit state machine (`handleSubmit`),
* the event-store refresh (`fetchEvents`).

JavaScript field absence and nullish values are modelled with `Option` and
with an explicit `JSVal` type where truthiness matters.  Network calls are
modelled by passing their outcome as an explicit parameter: the embedded
functions describe exactly what the code does with each possible outcome.
-/

namespace Mindual

/-! ## JavaScript value model

The page-number fields of a source fragment can be absent, null, a number or
a string; the code applies the nullish-coalescing operator and a truthiness
test to them, so they are modelled as a small JS value type. -/

/-- A JavaScript value as far as the interpreter logic inspects one. -/
inductive JSVal where
  | undef
  | nullv
  | num (n : Int)
  | str (s : String)
deriving Repr, DecidableEq

/-- Nullish means `undefined` or `null`: exactly the values skipped by `??`. -/
def JSVal.isNullish : JSVal → Bool
  | .undef => true
  | .nullv => true
  | _ => false

/-- The JS nullish-coalescing operator `a ?? b`. -/
def JSVal.coalesce (a b : JSVal) : JSVal :=
  if a.isNullish then b else a

/-- JS truthiness: `undefined`, `null`, `0` and `""` are falsy. -/
def JSVal.truthy : JSVal → Bool
  | .undef => false
  | .nullv => false
  | .num n => n != 0
  | .str s => s != ""

/-- JS string conversion, as used by the template literal `p.${pageInfo}`. -/
def JSVal.render : JSVal → String
  | .undef => "undefined"
  | .nullv => "null"
  | .num n => if 0 ≤ n then Nat.repr n.toNat else "-" ++ Nat.repr (-n).toNat
  | .str s => s

/-! ## Response interpreter (App.jsx lines 110 to 123)

The backend response is a JSON object; the fields the code reads are
modelled, each as optional (absent and null both collapse to `none`, which
is exactly how `??` treats them). -/

/-- One source fragment of the RAG response; the code reads only the two
page-number spellings from it. -/
structure SourceFragment where
  page : JSVal := .undef
  page_number : JSVal := .undef
deriving Repr, DecidableEq

/-- The RAG backend response object, restricted to the fields the code reads. -/
structure RagData where
  answer : Option String := none
  result : Option String := none
  contexts : Option (List SourceFragment) := none
  sources : Option (List SourceFragment) := none
  intent : Option String := none
deriving Repr, DecidableEq

/-- Embeds the fallback text of line 111 of App.jsx. -/
def fallbackAnswer : String := "응답을 가져오지 못했어요."

/-- Embeds the fixed connection-problem message of lines 143 to 144 of App.jsx. -/
def apologyText : String :=
  "죄송해요, RAG 서버에 연결하는 데 문제가 발생했습니다.\n서버 상태를 확인한 후 다시 시도해 주세요."

/-- The citation suffix template of line 121 of App.jsx, as a function of the
rendered page info. -/
def citationSuffix (p : String) : String :=
  "\n\n(참고: p." ++ p ++ " 등 매뉴얼 내용 기반)"

/-- Line 111: `data.answer ?? data.result ?? '응답을 가져오지 못했어요.'`. -/
def resolvedAnswer (d : RagData) : String :=
  d.answer.getD (d.result.getD fallbackAnswer)

/-- Line 112: `data.contexts ?? data.sources ?? []`. -/
def resolvedSources (d : RagData) : List SourceFragment :=
  d.contexts.getD (d.sources.getD [])

/-- Line 113: `data.intent ?? 'rag'`. -/
def resolvedIntent (d : RagData) : String :=
  d.intent.getD "rag"

/-- Line 114: `intent === 'reminder'`. -/
def isReminderResponse (d : RagData) : Bool :=
  resolvedIntent d == "reminder"

/-- Lines 116 to 123: the decorated answer.  The source tests
`!isReminder && sources.length > 0` and then reads `sources[0]`; matching on
the resolved source list and the reminder flag expresses the same cases:
the first match arm is the suffix branch (list non-empty, not a reminder),
every other combination leaves the answer text untouched. -/
def displayText (d : RagData) : String :=
  match resolvedSources d, isReminderResponse d with
  | first :: _, false =>
    let pageInfo := first.page.coalesce first.page_number
    if pageInfo.truthy then
      resolvedAnswer d ++ citationSuffix pageInfo.render
    else
      resolvedAnswer d
  | _, _ => resolvedAnswer d

/-- The interpretation of a backend response: what is displayed and whether
the response was classified as a reminder. -/
structure InterpResult where
  displayText : String
  isReminder : Bool
deriving Repr, DecidableEq

/-- The whole response-interpretation step of `handleSubmit` (lines 110 to 123). -/
def interpret (d : RagData) : InterpResult :=
  ⟨displayText d, isReminderResponse d⟩

/-! ## Calendar grid (App.jsx lines 9 to 57) -/

/-- Gregorian leap-year rule; `new Date` follows the proleptic Gregorian
calendar for these computations. -/
def isLeapYear (y : Nat) : Bool :=
  (y % 4 == 0 && y % 100 != 0) || y % 400 == 0

/-- Embeds `new Date(year, monthIndex + 1, 0).getDate()` (line 33): the
number of days of the zero-based month `m` of year `y`. -/
def daysInMonth (y m : Nat) : Nat :=
  if m = 1 then (if isLeapYear y then 29 else 28)
  else if m = 3 ∨ m = 5 ∨ m = 8 ∨ m = 10 then 30
  else 31

/-- Leap years strictly before year `y` (year numbers starting at 1). -/
def leapYearsBefore (y : Nat) : Nat :=
  (y - 1) / 4 - (y - 1) / 100 + (y - 1) / 400

/-- Days from 0001-01-01 to the first day of year `y`. -/
def daysBeforeYear (y : Nat) : Nat :=
  365 * (y - 1) + leapYearsBefore y

/-- Days from the first of January of year `y` to the first day of its
zero-based month `m`. -/
def daysBeforeMonth (y m : Nat) : Nat :=
  (List.range m).foldl (fun acc k => acc + daysInMonth y k) 0

/-- Embeds `new Date(year, monthIndex, 1).getDay()` (lines 31 to 32): the
weekday index of day 1 of the month, 0 = Sunday.  0001-01-01 of the
proleptic Gregorian calendar is a Monday, hence the offset 1. -/
def startWeekday (y m : Nat) : Nat :=
  (daysBeforeYear y + daysBeforeMonth y m + 1) % 7

/-- Embeds `padStart(2, '0')` as used on lines 11 and 12. -/
def padTwo (s : String) : String :=
  if s.length < 2 then String.mk (List.replicate (2 - s.length) '0') ++ s else s

/-- Embeds `formatISODate` (lines 9 to 14) on a date given as year,
zero-based month and day of month. -/
def formatISODate (y m d : Nat) : String :=
  Nat.repr y ++ "-" ++ padTwo (Nat.repr (m + 1)) ++ "-" ++ padTwo (Nat.repr d)

/-- A non-empty calendar cell (lines 42 to 46); empty padding slots are the
`none` entries of the cell list. -/
structure CalCell where
  key : String
  label : Nat
  isToday : Bool
deriving Repr, DecidableEq

/-- The cell pushed for day `day` (lines 40 to 47); `todayDay` is
`today.getDate()`. -/
def dayCell (y m todayDay day : Nat) : CalCell :=
  { key := formatISODate y m day, label := day, isToday := day == todayDay }

/-- Embeds the while loop of lines 49 to 51: append `null` cells until the
length is a multiple of 7. -/
def padToWeek (cells : List (Option CalCell)) : List (Option CalCell) :=
  if cells.length % 7 = 0 then cells else padToWeek (cells ++ [none])
termination_by (7 - cells.length % 7) % 7
decreasing_by
  simp only [List.length_append, List.length_cons, List.length_nil]
  omega

/-- The calendar display model (lines 53 to 56). -/
structure CalendarModel where
  label : String
  cells : List (Option CalCell)
deriving Repr, DecidableEq

/-- Embeds the `calendar` memo (lines 27 to 57): leading `null` cells for
the start weekday, one cell per day of the month, then padding to a full
week. -/
def calendar (y m todayDay : Nat) : CalendarModel :=
  { label := Nat.repr y ++ "년 " ++ Nat.repr (m + 1) ++ "월",
    cells := padToWeek
      (List.replicate (startWeekday y m) none
        ++ (List.range (daysInMonth y m)).map
            (fun i => some (dayCell y m todayDay (i + 1)))) }

/-! ## Event store (App.jsx lines 59 to 79)

`fetchEvents` requests the calendar events; its network outcome is passed as
an explicit parameter.  A non-ok HTTP status throws (line 66) and the throw
is caught by the surrounding catch (lines 70 to 73), as is a network or
JSON-parse error, so every failure clears the held events; on success the
held list is replaced by `data.events || []` (line 69). -/

/-- One calendar event, with the fields the UI reads. -/
structure CalEvent where
  id : String
  date : String
  time : String
  title : String
  location : String
deriving Repr, DecidableEq

/-- The outcome of the calendar-events network call as `fetchEvents`
distinguishes outcomes: an ok HTTP response with a parsed body whose
`events` field may be absent or null, a non-ok HTTP status, or a thrown
network or parse error. -/
inductive CalFetchResult where
  | success (events : Option (List CalEvent))
  | httpError (status : Nat)
  | networkError
deriving Repr, DecidableEq

/-! ## Chat session (App.jsx lines 81 to 150) -/

/-- A chat message as built on lines 86 to 91, 125 to 131 and 139 to 145. -/
structure Msg where
  id : String
  role : String
  name : String
  content : String
  variant : Option String := none
deriving Repr, DecidableEq

/-- The component state read and written by the submit handler: the message
list, the draft question, the loading flag and the held calendar events. -/
structure ChatState where
  messages : List Msg
  question : String
  loading : Bool
  calendarEvents : List CalEvent
deriving Repr, DecidableEq

/-- The initial component state (lines 21 to 25 and 59). -/
def initialChatState : ChatState :=
  { messages := [], question := "", loading := false, calendarEvents := [] }

/-- Embeds `fetchEvents` (lines 62 to 74) applied to a network outcome. -/
def fetchEvents (r : CalFetchResult) (s : ChatState) : ChatState :=
  match r with
  | .success events => { s with calendarEvents := events.getD [] }
  | .httpError _ => { s with calendarEvents := [] }
  | .networkError => { s with calendarEvents := [] }

/-- The outcome of the RAG network call: an ok HTTP response with a parsed
JSON body, or any thrown error (non-ok status, network failure, parse
failure), all of which land in the same catch block. -/
inductive RagOutcome where
  | ok (data : RagData)
  | fail
deriving Repr, DecidableEq

/-- Embeds the JS `trim()` call of line 83: strip leading and trailing
whitespace from the question. -/
def jsTrim (s : String) : String :=
  String.mk (((s.data.dropWhile Char.isWhitespace).reverse.dropWhile Char.isWhitespace).reverse)

/-- The user message of lines 86 to 91; `t` is the `Date.now()` reading. -/
def mkUserMessage (t : Nat) (content : String) : Msg :=
  { id := "user-" ++ Nat.repr t, role := "user", name := "나", content := content }

/-- The agent message of lines 125 to 131 and 139 to 145; `t` is the
`Date.now()` reading. -/
def mkAgentMessage (t : Nat) (content : String) (variant : Option String) : Msg :=
  { id := "agent-" ++ Nat.repr t, role := "agent", name := "Mindual",
    content := content, variant := variant }

/-- The state after the synchronous prefix of an accepted submit (lines 86
to 95): user message appended, draft cleared, loading set. -/
def submitMidState (tUser : Nat) (s : ChatState) : ChatState :=
  { s with
    messages := s.messages ++ [mkUserMessage tUser (jsTrim s.question)],
    question := "",
    loading := true }

/-- The result of one complete run of `handleSubmit`: the final state plus
counters for the RAG requests issued and the `fetchEvents` calls made. -/
structure SubmitResult where
  state : ChatState
  ragRequests : Nat
  refreshCalls : Nat
deriving Repr, DecidableEq

/-- Embeds one complete run of `handleSubmit` (lines 81 to 150).  `tUser`
and `tAgent` are the two `Date.now()` readings, `outcome` the RAG call
outcome and `cal` the outcome of the nested `fetchEvents` call (used only
on the reminder path).  The guard of line 84 rejects an empty trimmed
question or a submit while loading; otherwise the user message is appended,
the draft cleared and loading set (lines 86 to 95), the response or error
produces the agent message (lines 110 to 146), a reminder response awaits
`fetchEvents` (lines 134 to 136), and the finally block clears loading
(lines 147 to 149). -/
def handleSubmit (tUser tAgent : Nat) (outcome : RagOutcome) (cal : CalFetchResult)
    (s : ChatState) : SubmitResult :=
  if jsTrim s.question = "" ∨ s.loading = true then ⟨s, 0, 0⟩
  else
    let s1 := submitMidState tUser s
    match outcome with
    | .ok data =>
      let r := interpret data
      let agentMessage :=
        mkAgentMessage tAgent r.displayText (if r.isReminder then some "reminder" else none)
      let s2 := { s1 with messages := s1.messages ++ [agentMessage] }
      let s3 := if r.isReminder then fetchEvents cal s2 else s2
      ⟨{ s3 with loading := false }, 1, if r.isReminder then 1 else 0⟩
    | .fail =>
      let s2 := { s1 with messages := s1.messages ++ [mkAgentMessage tAgent apologyText none] }
      ⟨{ s2 with loading := false }, 1, 0⟩

/-! ## The order of effects inside one submit

For the temporal claims the state-transformer view is complemented by the
sequence of observable effects a single `handleSubmit` run performs, in
program order.  `await` in the source means the awaited operation completes
before any later effect of the same run, so the completion of the nested
`fetchEvents` call appears as an effect of its own. -/

/-- The observable effects of the submit handler. -/
inductive SubmitEff where
  | appendMsg (m : Msg)
  | clearDraft
  | setLoading (b : Bool)
  | ragRequestIssued
  | refreshStarted
  | refreshCompleted
deriving Repr, DecidableEq

/-- The effects of one `handleSubmit` run, in program order (the reminder
path runs `await fetchEvents()` on line 135, inside the try block and hence
before the finally block of lines 147 to 149 clears loading). -/
def submitEffects (tUser tAgent : Nat) (outcome : RagOutcome) (s : ChatState) :
    List SubmitEff :=
  if jsTrim s.question = "" ∨ s.loading = true then []
  else
    [.appendMsg (mkUserMessage tUser (jsTrim s.question)), .clearDraft,
     .setLoading true, .ragRequestIssued]
    ++ (match outcome with
        | .ok data =>
          let r := interpret data
          [.appendMsg (mkAgentMessage tAgent r.displayText
              (if r.isReminder then some "reminder" else none))]
          ++ (if r.isReminder then [.refreshStarted, .refreshCompleted] else [])
        | .fail => [.appendMsg (mkAgentMessage tAgent apologyText none)])
    ++ [.setLoading false]

/-- True when the trace clears the loading flag only after the refresh has
completed: some suffix of the trace starts right after `refreshCompleted`
and still contains `setLoading false`. -/
def refreshAwaitedBeforeLoadingCleared (tr : List SubmitEff) : Bool :=
  ((tr.dropWhile (fun e => e != SubmitEff.refreshCompleted)).drop 1).contains
    (SubmitEff.setLoading false)

/-! ## Reachable session states

The session evolves by the user editing the draft (`setQuestion` on change),
the mount-time events fetch, and complete submit runs.  Each state is paired
with the ghost list of `Date.now()` readings consumed by message creations,
tagged with the role prefix of the id built from them. -/

/-- The ghost stamps a submit contributes: nothing when rejected, the user
and agent clock readings when accepted. -/
def submitStamps (tUser tAgent : Nat) (s : ChatState) : List (Bool × Nat) :=
  if jsTrim s.question = "" ∨ s.loading = true then []
  else [(true, tUser), (false, tAgent)]

/-- The message id built from a ghost stamp: role prefix plus the decimal
clock reading, as on lines 87 and 126 and 140. -/
def renderId (p : Bool × Nat) : String :=
  (if p.1 then "user-" else "agent-") ++ Nat.repr p.2

/-- The states the chat session can reach, paired with the ghost stamp list
of the message-creation clock readings in creation order. -/
inductive Reachable : ChatState → List (Bool × Nat) → Prop where
  | init : Reachable initialChatState []
  | typing (q : String) {s : ChatState} {ts : List (Bool × Nat)} :
      Reachable s ts → Reachable { s with question := q } ts
  | mountFetch (r : CalFetchResult) {s : ChatState} {ts : List (Bool × Nat)} :
      Reachable s ts → Reachable (fetchEvents r s) ts
  | submit (tUser tAgent : Nat) (o : RagOutcome) (c : CalFetchResult)
      {s : ChatState} {ts : List (Bool × Nat)} :
      Reachable s ts →
      Reachable (handleSubmit tUser tAgent o c s).state (ts ++ submitStamps tUser tAgent s)

/-! ## Calendar lemmas -/

/-- The padding while loop appends exactly as many empty cells as the length
needs to reach the next multiple of 7. -/
theorem padToWeek_eq (cells : List (Option CalCell)) :
    padToWeek cells = cells ++ List.replicate ((7 - cells.length % 7) % 7) none := by
  rw [padToWeek]
  split
  · next h =>
    rw [h]
    simp
  · next h =>
    rw [padToWeek_eq (cells ++ [none])]
    have hlen : (cells ++ [none]).length = cells.length + 1 := by simp
    rw [hlen, List.append_assoc]
    congr 1
    have hk : (7 - (cells.length + 1) % 7) % 7 + 1 = (7 - cells.length % 7) % 7 := by omega
    rw [← hk]
    simp [List.replicate_succ]
termination_by (7 - cells.length % 7) % 7
decreasing_by
  simp only [List.length_append, List.length_cons, List.length_nil]
  omega

/-- Counting with a predicate over a replicated element. -/
theorem countP_replicate {α : Type} (p : α → Bool) (a : α) (n : Nat) :
    (List.replicate n a).countP p = if p a then n else 0 := by
  induction n with
  | zero => simp
  | succ n ih =>
    rw [List.replicate_succ, List.countP_cons, ih]
    by_cases h : p a <;> simp [h]

/-- Closed form of the calendar cell list: the start-weekday empty prefix,
the day cells in order, and the tail padding to the next multiple of 7. -/
theorem calendar_cells_eq (y m todayDay : Nat) :
    (calendar y m todayDay).cells =
      List.replicate (startWeekday y m) none
        ++ (List.range (daysInMonth y m)).map (fun i => some (dayCell y m todayDay (i + 1)))
        ++ List.replicate ((7 - (startWeekday y m + daysInMonth y m) % 7) % 7) none := by
  show padToWeek _ = _
  rw [padToWeek_eq]
  simp [List.append_assoc]

/-- C1: for every reference date, the calendar grid has a cell-sequence
length that is a multiple of 7, exactly `daysInMonth` non-empty cells, and
is exactly: one empty cell per weekday index (0 = Sunday) of day 1, then one
cell per day 1..lastDayOfMonth in order, then empty cells until the length
is divisible by 7. -/
theorem calendar_grid_builder_shape (y m todayDay : Nat) :
    (calendar y m todayDay).cells.length % 7 = 0 ∧
    (calendar y m todayDay).cells.countP (fun c => c.isSome) = daysInMonth y m ∧
    (calendar y m todayDay).cells =
      List.replicate (startWeekday y m) none
        ++ (List.range (daysInMonth y m)).map (fun i => some (dayCell y m todayDay (i + 1)))
        ++ List.replicate ((7 - (startWeekday y m + daysInMonth y m) % 7) % 7) none := by
  refine ⟨?_, ?_, calendar_cells_eq y m todayDay⟩
  · rw [calendar_cells_eq]
    simp only [List.length_append, List.length_replicate, List.length_map, List.length_range]
    omega
  · rw [calendar_cells_eq]
    simp [List.countP_append, countP_replicate, List.countP_map, Function.comp_def,
      List.countP_true]

/-! ## Response interpreter lemmas -/

/-- Coalescing two falsy values is falsy. -/
theorem coalesce_falsy {a b : JSVal} (ha : a.truthy = false) (hb : b.truthy = false) :
    (a.coalesce b).truthy = false := by
  unfold JSVal.coalesce
  split <;> assumption

/-- C9: the interpreter is a total function; when the answer fields, the
source fields and the intent are all absent, the display text is the fixed
fallback message, the sources resolve to the empty sequence, and the
reminder flag is false. -/
theorem interpreter_defaults (d : RagData) (h1 : d.answer = none) (h2 : d.result = none)
    (h3 : d.contexts = none) (h4 : d.sources = none) (h5 : d.intent = none) :
    (interpret d).displayText = fallbackAnswer ∧ resolvedSources d = [] ∧
    (interpret d).isReminder = false := by
  have hs : resolvedSources d = [] := by simp [resolvedSources, h3, h4]
  have hi : isReminderResponse d = false := by
    simp [isReminderResponse, resolvedIntent, h5]
  refine ⟨?_, hs, hi⟩
  simp [interpret, displayText, hs, resolvedAnswer, h1, h2]

/-- Witness for C9 at the empty response object. -/
theorem interpreter_defaults_witness :
    ({} : RagData).answer = none ∧
    ((interpret {}).displayText = fallbackAnswer ∧ resolvedSources {} = [] ∧
      (interpret {}).isReminder = false) :=
  ⟨rfl, interpreter_defaults {} rfl rfl rfl rfl rfl⟩

/-- C10: the citation decision inspects only the first source fragment:
when the first fragment carries no truthy page number under either
spelling, no suffix is appended, whatever the later fragments hold. -/
theorem citation_uses_only_first_fragment (d : RagData) (first : SourceFragment)
    (rest : List SourceFragment)
    (hs : resolvedSources d = first :: rest)
    (hrem : isReminderResponse d = false)
    (hp : first.page.truthy = false)
    (hpn : first.page_number.truthy = false) :
    (interpret d).displayText = resolvedAnswer d := by
  simp [interpret, displayText, hs, hrem, coalesce_falsy hp hpn]

/-- Witness for C10: the first fragment has the falsy page number 0 while
the second fragment carries page 7; no suffix is appended. -/
theorem citation_uses_only_first_fragment_witness :
    resolvedSources
        { answer := some "A",
          contexts := some [{ page := JSVal.num 0 }, { page := JSVal.num 7 }] } =
      { page := JSVal.num 0 } :: [{ page := JSVal.num 7 }] ∧
    (interpret
        { answer := some "A",
          contexts := some [{ page := JSVal.num 0 }, { page := JSVal.num 7 }] }).displayText =
      resolvedAnswer
        { answer := some "A",
          contexts := some [{ page := JSVal.num 0 }, { page := JSVal.num 7 }] } :=
  ⟨rfl,
   citation_uses_only_first_fragment _ _ _ rfl (by decide) (by decide) (by decide)⟩

/-- The concrete response that separates the first-fragment rule from an
any-fragment rule: the first fragment exposes no page number, the second
exposes page 12. -/
def anyFragmentCexData : RagData :=
  { answer := some "X",
    contexts := some [{}, { page := JSVal.num 12 }] }

/-- C2 counterexample: on `anyFragmentCexData` the response is not a
reminder and a source fragment with a present page-number field exists,
yet the display text is exactly the bare answer: no suffix of any page
number is appended, so appending is not decided by "at least one fragment
has a page number". -/
theorem citation_any_fragment_counterexample :
    (interpret anyFragmentCexData).isReminder = false ∧
    (∃ f ∈ resolvedSources anyFragmentCexData,
        f.page.isNullish = false ∨ f.page_number.isNullish = false) ∧
    (interpret anyFragmentCexData).displayText = "X" ∧
    "X" ≠ "X" ++ citationSuffix "12" := by
  refine ⟨rfl, ?_, rfl, ?_⟩
  · exact ⟨{ page := JSVal.num 12 }, by decide, by decide⟩
  · decide

/-- C2 as amended: the reminder flag is true exactly when the resolved
intent is "reminder"; a reminder response displays the bare resolved
answer; a response without source fragments displays the bare resolved
answer; and a non-reminder response with at least one fragment appends the
citation suffix exactly when the FIRST fragment's page field, with
page_number as the nullish fallback, is truthy, using that page value. -/
theorem display_text_citation_characterization (d : RagData) :
    ((interpret d).isReminder = true ↔ resolvedIntent d = "reminder") ∧
    (isReminderResponse d = true → (interpret d).displayText = resolvedAnswer d) ∧
    (resolvedSources d = [] → (interpret d).displayText = resolvedAnswer d) ∧
    (∀ first rest, resolvedSources d = first :: rest → isReminderResponse d = false →
      ((first.page.coalesce first.page_number).truthy = true →
        (interpret d).displayText =
          resolvedAnswer d ++ citationSuffix (first.page.coalesce first.page_number).render) ∧
      ((first.page.coalesce first.page_number).truthy = false →
        (interpret d).displayText = resolvedAnswer d)) := by
  refine ⟨?_, ?_, ?_, ?_⟩
  · simp [interpret, isReminderResponse]
  · intro h
    simp [interpret, displayText, h]
  · intro h
    simp [interpret, displayText, h]
  · intro first rest hs hrem
    constructor
    · intro htruthy
      simp [interpret, displayText, hs, hrem, htruthy]
    · intro hfalsy
      simp [interpret, displayText, hs, hrem, hfalsy]

/-- Witness for the amended C2, at the second test vector of the spec:
`{result: "Y", contexts: [{page: 12}]}` yields the decorated answer. -/
theorem display_text_citation_characterization_witness :
    resolvedSources { result := some "Y", contexts := some [{ page := JSVal.num 12 }] } =
      { page := JSVal.num 12 } :: [] ∧
    (interpret { result := some "Y", contexts := some [{ page := JSVal.num 12 }] }).displayText =
      "Y" ++ citationSuffix "12" :=
  ⟨rfl,
   ((display_text_citation_characterization
        { result := some "Y", contexts := some [{ page := JSVal.num 12 }] }).2.2.2
      { page := JSVal.num 12 } [] rfl (by decide)).1 (by decide)⟩

/-! ## Chat session theorems -/

/-- C3: a submit whose trimmed question is empty, or issued while a request
is in flight, is a no-op: the whole state (messages, draft, flag, events)
is unchanged, no RAG request is issued and no refresh happens. -/
theorem submit_rejected_noop (tUser tAgent : Nat) (o : RagOutcome) (c : CalFetchResult)
    (s : ChatState) (h : jsTrim s.question = "" ∨ s.loading = true) :
    handleSubmit tUser tAgent o c s = ⟨s, 0, 0⟩ := by
  unfold handleSubmit
  rw [if_pos h]

/-- Witness for C3 at a whitespace-only draft. -/
theorem submit_rejected_noop_witness :
    (jsTrim (⟨[], "   ", false, []⟩ : ChatState).question = "" ∨
      (⟨[], "   ", false, []⟩ : ChatState).loading = true) ∧
    handleSubmit 1 2 RagOutcome.fail CalFetchResult.networkError ⟨[], "   ", false, []⟩ =
      ⟨⟨[], "   ", false, []⟩, 0, 0⟩ :=
  ⟨Or.inl (by decide),
   submit_rejected_noop 1 2 RagOutcome.fail CalFetchResult.networkError _ (Or.inl (by decide))⟩

/-- C4: an accepted submit runs Idle to Sending to Idle: the loading flag
is false before, true after the synchronous prefix, and false at the end on
the success path and on the failure path alike, for every outcome of the
nested refresh. -/
theorem submit_always_clears_loading (tUser tAgent : Nat) (o : RagOutcome)
    (c : CalFetchResult) (s : ChatState)
    (h : ¬(jsTrim s.question = "" ∨ s.loading = true)) :
    s.loading = false ∧ (submitMidState tUser s).loading = true ∧
    (handleSubmit tUser tAgent o c s).state.loading = false := by
  refine ⟨by simpa using (not_or.mp h).2, rfl, ?_⟩
  unfold handleSubmit
  rw [if_neg h]
  cases o <;> rfl

/-- Witness for C4 at a fresh state with the draft "hello". -/
theorem submit_always_clears_loading_witness :
    ¬(jsTrim (⟨[], "hello", false, []⟩ : ChatState).question = "" ∨
        (⟨[], "hello", false, []⟩ : ChatState).loading = true) ∧
    ((⟨[], "hello", false, []⟩ : ChatState).loading = false ∧
      (submitMidState 1 ⟨[], "hello", false, []⟩).loading = true ∧
      (handleSubmit 1 2 RagOutcome.fail CalFetchResult.networkError
          ⟨[], "hello", false, []⟩).state.loading = false) :=
  ⟨by decide,
   submit_always_clears_loading 1 2 RagOutcome.fail CalFetchResult.networkError _ (by decide)⟩

/-- C5: a single accepted submit answered with intent "reminder" makes
exactly one refresh call; answered with intent "rag" or with no intent it
makes none. -/
theorem reminder_intent_refresh_count (tUser tAgent : Nat) (d : RagData)
    (c : CalFetchResult) (s : ChatState)
    (h : ¬(jsTrim s.question = "" ∨ s.loading = true)) :
    (d.intent = some "reminder" →
      (handleSubmit tUser tAgent (.ok d) c s).refreshCalls = 1) ∧
    ((d.intent = some "rag" ∨ d.intent = none) →
      (handleSubmit tUser tAgent (.ok d) c s).refreshCalls = 0) := by
  unfold handleSubmit
  rw [if_neg h]
  constructor
  · intro hi
    simp [interpret, isReminderResponse, resolvedIntent, hi]
  · rintro (hi | hi) <;> simp [interpret, isReminderResponse, resolvedIntent, hi]

/-- Witness for C5: a reminder response to the question "test" makes
exactly one refresh call. -/
theorem reminder_intent_refresh_count_witness :
    ¬(jsTrim (⟨[], "test", false, []⟩ : ChatState).question = "" ∨
        (⟨[], "test", false, []⟩ : ChatState).loading = true) ∧
    ({ intent := some "reminder" } : RagData).intent = some "reminder" ∧
    (handleSubmit 1 2 (.ok { intent := some "reminder" }) CalFetchResult.networkError
        ⟨[], "test", false, []⟩).refreshCalls = 1 :=
  ⟨by decide, rfl,
   (reminder_intent_refresh_count 1 2 { intent := some "reminder" }
      CalFetchResult.networkError _ (by decide)).1 rfl⟩

/-- C6: the events refresh absorbs every failure by clearing the held
events, replaces them wholesale on success, and its result never depends on
the previously held events (no partial merge); it is a total function, so
no error reaches the caller. -/
theorem refresh_replaces_or_clears (r : CalFetchResult) (s other : ChatState) :
    (∀ status, r = .httpError status → (fetchEvents r s).calendarEvents = []) ∧
    (r = .networkError → (fetchEvents r s).calendarEvents = []) ∧
    (∀ evs, r = .success evs → (fetchEvents r s).calendarEvents = evs.getD []) ∧
    (fetchEvents r s).calendarEvents = (fetchEvents r other).calendarEvents := by
  cases r <;> simp [fetchEvents]

/-- Witness for C6 at a 500-status response. -/
theorem refresh_replaces_or_clears_witness :
    (CalFetchResult.httpError 500 = CalFetchResult.httpError 500) ∧
    (fetchEvents (.httpError 500) initialChatState).calendarEvents = [] :=
  ⟨rfl,
   (refresh_replaces_or_clears (.httpError 500) initialChatState initialChatState).1 500 rfl⟩

/-! ## The reminder refresh and the chat turn (C7) -/

/-- The refresh only ever touches the held events, never the messages. -/
theorem fetchEvents_messages (r : CalFetchResult) (s : ChatState) :
    (fetchEvents r s).messages = s.messages := by
  cases r <;> rfl

/-- The agent message appended by an accepted submit, by outcome. -/
def agentMessageOf (t : Nat) (o : RagOutcome) : Msg :=
  match o with
  | .ok data =>
    mkAgentMessage t (interpret data).displayText
      (if (interpret data).isReminder then some "reminder" else none)
  | .fail => mkAgentMessage t apologyText none

/-- An accepted submit appends exactly the user message and one agent
message, for every outcome and every refresh outcome. -/
theorem handleSubmit_messages (tUser tAgent : Nat) (o : RagOutcome) (c : CalFetchResult)
    (s : ChatState) (h : ¬(jsTrim s.question = "" ∨ s.loading = true)) :
    (handleSubmit tUser tAgent o c s).state.messages =
      s.messages ++ [mkUserMessage tUser (jsTrim s.question), agentMessageOf tAgent o] := by
  unfold handleSubmit
  rw [if_neg h]
  cases o with
  | ok data =>
    cases hr : (interpret data).isReminder <;>
      simp [hr, fetchEvents_messages, submitMidState, agentMessageOf]
  | fail => simp [submitMidState, agentMessageOf]

/-- A rejected submit returns the state unchanged and issues nothing. -/
theorem handleSubmit_rejected (tUser tAgent : Nat) (o : RagOutcome) (c : CalFetchResult)
    (s : ChatState) (h : jsTrim s.question = "" ∨ s.loading = true) :
    handleSubmit tUser tAgent o c s = ⟨s, 0, 0⟩ := by
  unfold handleSubmit
  rw [if_pos h]

/-- The loading flag is false after every completed submit. -/
theorem handleSubmit_loading (tUser tAgent : Nat) (o : RagOutcome) (c : CalFetchResult)
    (s : ChatState) (h : ¬(jsTrim s.question = "" ∨ s.loading = true)) :
    (handleSubmit tUser tAgent o c s).state.loading = false := by
  unfold handleSubmit
  rw [if_neg h]
  cases o <;> rfl

/-- C7 counterexample: on a reminder response the effect trace of a submit
completes the refresh strictly before it clears the loading flag: the
refresh is awaited by the chat turn, it is not dispatched independently of
the turn completing. -/
theorem reminder_refresh_awaited_counterexample :
    (interpret { answer := some "done", intent := some "reminder" }).isReminder = true ∧
    submitEffects 1 2 (.ok { answer := some "done", intent := some "reminder" })
        ⟨[], "hi", false, []⟩ =
      [SubmitEff.appendMsg (mkUserMessage 1 "hi"), SubmitEff.clearDraft,
       SubmitEff.setLoading true, SubmitEff.ragRequestIssued,
       SubmitEff.appendMsg (mkAgentMessage 2 "done" (some "reminder")),
       SubmitEff.refreshStarted, SubmitEff.refreshCompleted,
       SubmitEff.setLoading false] ∧
    refreshAwaitedBeforeLoadingCleared
        (submitEffects 1 2 (.ok { answer := some "done", intent := some "reminder" })
          ⟨[], "hi", false, []⟩) = true := by
  refine ⟨by decide, by decide, by decide⟩

/-- C7 as amended: inside one accepted submit with a reminder response the
nested refresh is awaited: the loading flag is cleared only after the
refresh completes (so a slow refresh delays the end of the chat turn);
the agent message itself is appended before the refresh starts, and a
failing refresh never fails the chat turn: the final messages and the
cleared loading flag are the same for every refresh outcome. -/
theorem reminder_refresh_awaited (tUser tAgent : Nat) (d : RagData) (s : ChatState)
    (h : ¬(jsTrim s.question = "" ∨ s.loading = true))
    (hrem : isReminderResponse d = true) :
    refreshAwaitedBeforeLoadingCleared (submitEffects tUser tAgent (.ok d) s) = true ∧
    (∀ c₁ c₂ : CalFetchResult,
      (handleSubmit tUser tAgent (.ok d) c₁ s).state.messages =
        (handleSubmit tUser tAgent (.ok d) c₂ s).state.messages) ∧
    (∀ c : CalFetchResult,
      (handleSubmit tUser tAgent (.ok d) c s).state.loading = false) := by
  refine ⟨?_, ?_, ?_⟩
  · have hr : (interpret d).isReminder = true := hrem
    have htrace : submitEffects tUser tAgent (.ok d) s =
        [.appendMsg (mkUserMessage tUser (jsTrim s.question)), .clearDraft, .setLoading true,
         .ragRequestIssued,
         .appendMsg (mkAgentMessage tAgent (interpret d).displayText (some "reminder")),
         .refreshStarted, .refreshCompleted, .setLoading false] := by
      unfold submitEffects
      rw [if_neg h]
      simp [hr]
    rw [htrace]
    rfl
  · intro c₁ c₂
    rw [handleSubmit_messages tUser tAgent _ c₁ s h,
      handleSubmit_messages tUser tAgent _ c₂ s h]
  · intro c
    exact handleSubmit_loading tUser tAgent _ c s h

/-- Witness for the amended C7 at a concrete reminder submit. -/
theorem reminder_refresh_awaited_witness :
    ¬(jsTrim (⟨[], "hi", false, []⟩ : ChatState).question = "" ∨
        (⟨[], "hi", false, []⟩ : ChatState).loading = true) ∧
    isReminderResponse { intent := some "reminder" } = true ∧
    refreshAwaitedBeforeLoadingCleared
        (submitEffects 3 4 (.ok { intent := some "reminder" }) ⟨[], "hi", false, []⟩) = true ∧
    (handleSubmit 3 4 (.ok { intent := some "reminder" }) CalFetchResult.networkError
        ⟨[], "hi", false, []⟩).state.loading = false :=
  ⟨by decide, by decide,
   (reminder_refresh_awaited 3 4 { intent := some "reminder" } ⟨[], "hi", false, []⟩
      (by decide) (by decide)).1,
   (reminder_refresh_awaited 3 4 { intent := some "reminder" } ⟨[], "hi", false, []⟩
      (by decide) (by decide)).2.2 CalFetchResult.networkError⟩

/-! ## Injectivity of the decimal message-id rendering

The message ids embed `Date.now()` through `Nat.repr`; to compare ids the
decimal rendering is inverted by a parser, which shows `Nat.repr` is
injective. -/

/-- The numeric value of a decimal digit character. -/
def digitVal (c : Char) : Nat := c.toNat - '0'.toNat

/-- Horner evaluation of a digit string on top of the accumulator `a`. -/
def parseDigits (a : Nat) (l : List Char) : Nat :=
  l.foldl (fun acc c => 10 * acc + digitVal c) a

/-- The decimal value of the character data of a string. -/
def parseNat (s : String) : Nat := parseDigits 0 s.data

theorem parseDigits_cons (a : Nat) (c : Char) (l : List Char) :
    parseDigits a (c :: l) = parseDigits (10 * a + digitVal c) l := rfl

/-- `digitVal` inverts `Nat.digitChar` on decimal digits. -/
theorem digitVal_digitChar (d : Nat) (h : d < 10) :
    digitVal (Nat.digitChar d) = d := by
  interval_cases d <;> rfl

/-- One unfolding step of the fuelled core of `Nat.repr`. -/
theorem toDigitsCore_succ (f n : Nat) (acc : List Char) :
    Nat.toDigitsCore 10 (f + 1) n acc =
      if n / 10 = 0 then Nat.digitChar (n % 10) :: acc
      else Nat.toDigitsCore 10 f (n / 10) (Nat.digitChar (n % 10) :: acc) := rfl

/-- Parsing what `Nat.toDigitsCore` produces recovers the number, shifted
onto the accumulator at the digit width. -/
theorem parseDigits_toDigitsCore (f : Nat) :
    ∀ (n : Nat) (acc : List Char) (a : Nat), 1 ≤ f → n < 10 ^ f →
      ∃ e, parseDigits a (Nat.toDigitsCore 10 f n acc) = parseDigits (a * 10 ^ e + n) acc := by
  induction f with
  | zero => intro n acc a h1 _; omega
  | succ f ih =>
    intro n acc a _ hlt
    rw [toDigitsCore_succ]
    by_cases h0 : n / 10 = 0
    · rw [if_pos h0, parseDigits_cons, digitVal_digitChar _ (Nat.mod_lt n (by omega))]
      refine ⟨1, ?_⟩
      have hn : n % 10 = n := by omega
      rw [hn]
      ring_nf
    · rw [if_neg h0]
      have hf : 1 ≤ f := by
        by_contra hc
        have : f = 0 := by omega
        subst this
        simp at hlt
        omega
      have hdiv : n / 10 < 10 ^ f := by
        have h10 : (0:Nat) < 10 := by omega
        rw [Nat.div_lt_iff_lt_mul h10]
        calc n < 10 ^ (f + 1) := hlt
          _ = 10 ^ f * 10 := by ring
      obtain ⟨e, he⟩ := ih (n / 10) (Nat.digitChar (n % 10) :: acc) a hf hdiv
      refine ⟨e + 1, ?_⟩
      rw [he, parseDigits_cons, digitVal_digitChar _ (Nat.mod_lt n (by omega))]
      congr 1
      have hn : 10 * (n / 10) + n % 10 = n := Nat.div_add_mod n 10
      calc 10 * (a * 10 ^ e + n / 10) + n % 10
          = a * 10 ^ (e + 1) + (10 * (n / 10) + n % 10) := by ring
        _ = a * 10 ^ (e + 1) + n := by rw [hn]

/-- Parsing the decimal rendering of a natural number gives it back. -/
theorem parseNat_repr (n : Nat) : parseNat (Nat.repr n) = n := by
  have hfuel : n < 10 ^ (n + 1) := by
    calc n < 10 ^ n := Nat.lt_pow_self (by omega) n
      _ ≤ 10 ^ (n + 1) := Nat.pow_le_pow_right (by omega) (Nat.le_succ n)
  obtain ⟨e, he⟩ :=
    parseDigits_toDigitsCore (n + 1) n [] 0 (by omega) hfuel
  show parseDigits 0 ((Nat.toDigitsCore 10 (n + 1) n []).asString).data = n
  have hdata : ((Nat.toDigitsCore 10 (n + 1) n []).asString).data =
      Nat.toDigitsCore 10 (n + 1) n [] := rfl
  rw [hdata, he]
  show 0 * 10 ^ e + n = n
  ring

/-- The decimal rendering of natural numbers is injective. -/
theorem nat_repr_injective {m n : Nat} (h : Nat.repr m = Nat.repr n) : m = n := by
  have := congrArg parseNat h
  rwa [parseNat_repr, parseNat_repr] at this

/-- The id rendering is injective on stamps: the role prefixes differ in
their first character, and the decimal part is injective. -/
theorem renderId_injective (p q : Bool × Nat) (h : renderId p = renderId q) : p = q := by
  obtain ⟨bp, tp⟩ := p
  obtain ⟨bq, tq⟩ := q
  have hd := congrArg String.data h
  cases bp <;> cases bq <;>
    simp only [renderId, Bool.false_eq_true, if_true, if_false, ite_true, ite_false,
      String.data_append] at hd
  · have : Nat.repr tp = Nat.repr tq := String.ext (List.append_cancel_left hd)
    rw [nat_repr_injective this]
  · simp only [List.cons_append, List.nil_append] at hd
    injection hd with h1 _
    exact absurd h1 (by decide)
  · simp only [List.cons_append, List.nil_append] at hd
    injection hd with h1 _
    exact absurd h1 (by decide)
  · have : Nat.repr tp = Nat.repr tq := String.ext (List.append_cancel_left hd)
    rw [nat_repr_injective this]

/-- The id of the agent message does not depend on the outcome. -/
theorem agentMessageOf_id (t : Nat) (o : RagOutcome) :
    (agentMessageOf t o).id = "agent-" ++ Nat.repr t := by
  cases o <;> rfl

/-- In every reachable state the message ids are exactly the rendered ghost
stamps, in creation order: the history is append-only and each accepted
submit contributes the user id then the agent id. -/
theorem reachable_message_ids {s : ChatState} {ts : List (Bool × Nat)}
    (h : Reachable s ts) : s.messages.map Msg.id = ts.map renderId := by
  induction h with
  | init => rfl
  | typing q _ ih => exact ih
  | mountFetch r _ ih =>
    show (fetchEvents r _).messages.map Msg.id = _
    rw [fetchEvents_messages]
    exact ih
  | submit tUser tAgent o c _ ih =>
    rename_i s' ts' _
    by_cases hrej : jsTrim s'.question = "" ∨ s'.loading = true
    · rw [handleSubmit_rejected _ _ _ _ _ hrej]
      unfold submitStamps
      rw [if_pos hrej]
      simpa using ih
    · rw [handleSubmit_messages _ _ _ _ _ hrej]
      unfold submitStamps
      rw [if_neg hrej]
      simp [ih, agentMessageOf_id, renderId, mkUserMessage]

/-- C8 as amended: message ids are pairwise distinct in every reachable
state whose message-creation clock readings strictly increase, and the ids
equal the rendered stamps in creation order, so history order follows
creation order.  (With repeated clock readings, duplicate ids are
reachable: see the counterexample.) -/
theorem message_ids_unique_under_strict_clock (s : ChatState) (ts : List (Bool × Nat))
    (h : Reachable s ts) (hmono : ts.Pairwise (fun p q => p.2 < q.2)) :
    (s.messages.map Msg.id).Nodup ∧ s.messages.map Msg.id = ts.map renderId := by
  have hids := reachable_message_ids h
  refine ⟨?_, hids⟩
  rw [hids]
  refine List.Pairwise.map renderId ?_ hmono
  intro a b hab heq
  have hab2 : a = b := renderId_injective a b heq
  rw [hab2] at hab
  omega

/-- Witness for the amended C8: one accepted submit with strictly
increasing clock readings 5 and 9 yields pairwise distinct ids. -/
theorem message_ids_unique_under_strict_clock_witness :
    (([] ++ submitStamps 5 9 { initialChatState with question := "ok" }).Pairwise
      (fun p q : Bool × Nat => p.2 < q.2)) ∧
    ((handleSubmit 5 9 RagOutcome.fail CalFetchResult.networkError
        { initialChatState with question := "ok" }).state.messages.map Msg.id).Nodup :=
  ⟨by decide,
   (message_ids_unique_under_strict_clock _ _
      (Reachable.submit 5 9 RagOutcome.fail CalFetchResult.networkError
        (Reachable.typing "ok" Reachable.init))
      (by decide)).1⟩

/-- The first intermediate state of the duplicate-id scenario: the draft
"hi" typed into the fresh session. -/
def dupIdState1 : ChatState := { initialChatState with question := "hi" }

/-- The second intermediate state: after a first complete submit at clock
reading 100, the draft "hi" typed again. -/
def dupIdState2 : ChatState :=
  { (handleSubmit 100 100 RagOutcome.fail CalFetchResult.networkError dupIdState1).state with
    question := "hi" }

/-- The final state of the duplicate-id scenario: a second complete submit,
again at clock reading 100 (the millisecond clock did not advance). -/
def dupIdFinal : ChatState :=
  (handleSubmit 100 100 RagOutcome.fail CalFetchResult.networkError dupIdState2).state

/-- The ghost stamps of the duplicate-id scenario. -/
def dupIdStamps : List (Bool × Nat) :=
  ([] ++ submitStamps 100 100 dupIdState1) ++ submitStamps 100 100 dupIdState2

/-- C8 counterexample: a session state reachable by two submits completing
within the same millisecond (both `Date.now()` readings equal 100) holds
four messages whose ids are NOT pairwise distinct: the id "user-100"
occurs twice, so uniqueness of message ids fails on the code as stated. -/
theorem message_ids_unique_counterexample :
    Reachable dupIdFinal dupIdStamps ∧
    dupIdFinal.messages.map Msg.id = ["user-100", "agent-100", "user-100", "agent-100"] ∧
    ¬(dupIdFinal.messages.map Msg.id).Nodup := by
  refine ⟨?_, by decide, by decide⟩
  exact Reachable.submit 100 100 RagOutcome.fail CalFetchResult.networkError
    (Reachable.typing "hi"
      (Reachable.submit 100 100 RagOutcome.fail CalFetchResult.networkError
        (Reachable.typing "hi" Reachable.init)))

end Mindual
